import Mathlib

/-!
Shallow embedding of the multimodal-agent tutorial
(src/tutorials/005-multimodal-agent.ipynb).

The notebook defines two tool classes, ImageCaptionTool (BLIP captioning,
generate with max_new_tokens=20) and ObjectDetectionTool (DETR detection,
post-processed at threshold 0.9 and rendered line by line), together with
two standalone helper functions that repeat the same bodies. The external
world — PIL image decoding, the from_pretrained model loads, the model
inference itself and the Python rendering of a float — is abstracted into
an environment record; everything the notebook code itself does (the
control flow, the error propagation, the 0.9 threshold filter, the
20-token generation budget, the formatting loop) is translated directly.
-/

/-- A decoded RGB pixel buffer, the value of Image.open(path).convert(RGB).
The pixel contents are consumed only by the abstract models, so the image is
kept abstract apart from its size (image.size is used for target_sizes). -/
structure RGBImage where
  width : Nat
  height : Nat
deriving DecidableEq, Repr

/-- Failure signals raised by the notebook code and the libraries it calls:
decodeError models PIL failing to open the path or convert it to RGB,
loadError models a from_pretrained call failing to fetch or load weights,
and notImplementedError models the Python NotImplementedError raised by the
_arun methods. None of them is ever caught in the notebook. -/
inductive PyError where
  | decodeError
  | loadError
  | notImplementedError (msg : String)
deriving DecidableEq, Repr

/-- Models a from_pretrained call against the environment: a failed fetch
or load raises, embedded as loadError; otherwise the loaded object is
returned. -/
def from_pretrained {α : Type} (loaded : Option α) : Except PyError α :=
  match loaded with
  | none => Except.error PyError.loadError
  | some a => Except.ok a

/-- The BLIP processor loaded by BlipProcessor.from_pretrained. Its
preprocessing step produces an abstract tensor consumed only by the paired
model, so that step is absorbed into the model function; the field special
records which vocabulary tokens are special tokens, the ones that
decode(..., skip_special_tokens=True) drops. -/
structure BlipProcessor where
  special : String → Bool

/-- Models processor.decode(output, skip_special_tokens=True): drop the
special tokens from the generated sequence and concatenate the rest. -/
def BlipProcessor.decode (p : BlipProcessor) (tokens : List String) : String :=
  String.join (tokens.filter (fun tok => !(p.special tok)))

/-- The BLIP captioning model loaded by
BlipForConditionalGeneration.from_pretrained. The field stream gives the
decoding stream the model would emit for an image if never stopped; a
bounded generate call truncates it. -/
structure BlipModel where
  stream : RGBImage → List String

/-- Models model.generate(**inputs, max_new_tokens=n): the generation loop
emits tokens from the decoding stream for the image and stops after at most
n generated tokens. -/
def BlipModel.generate (m : BlipModel) (image : RGBImage) (maxNewTokens : Nat) : List String :=
  (m.stream image).take maxNewTokens

/-- One raw detection produced by the DETR pipeline for an image: a
confidence score, a class label id, and an (x1, y1, x2, y2) box already in
absolute coordinates. Scores and coordinates are floats in the source and
are embedded as rationals. -/
structure RawDetection where
  score : Rat
  label : Nat
  box : Rat × Rat × Rat × Rat
deriving DecidableEq, Repr

/-- The DETR image processor loaded by DetrImageProcessor.from_pretrained.
Its preprocessing produces an abstract tensor consumed only by the paired
model, so it carries no data of its own here. -/
structure DetrProcessor where

/-- Models processor.post_process_object_detection(outputs, target_sizes,
threshold): of the raw detections it keeps exactly those whose score is
strictly above the threshold. The conversion of normalized boxes to
absolute COCO-style coordinates using target_sizes is already reflected in
RawDetection.box. -/
def DetrProcessor.post_process_object_detection (_p : DetrProcessor)
    (outputs : List RawDetection) (threshold : Rat) : List RawDetection :=
  outputs.filter (fun d => threshold < d.score)

/-- The DETR detection model loaded by
DetrForObjectDetection.from_pretrained: forward gives its raw detections
for a preprocessed image and id2label the class-label names read from
model.config.id2label. -/
structure DetrModel where
  forward : RGBImage → List RawDetection
  id2label : Nat → String

/-- The external world the notebook code calls into: PIL image decoding
(none when the path cannot be opened and converted to RGB), the four
from_pretrained loads (none when the weights cannot be fetched or loaded),
and the Python rendering of a float by str, used by the score format
call. -/
structure Env where
  decodeRGB : String → Option RGBImage
  blipProcessor : Option BlipProcessor
  blipModel : Option BlipModel
  detrProcessor : Option DetrProcessor
  detrModel : Option DetrModel
  formatFloat : Rat → String

/-- Python int() applied to a float truncates toward zero, as in the
int(box[0]) conversions of the detection loop. -/
def pyInt (q : Rat) : Int :=
  q.num.tdiv (q.den : Int)

/-- The single-detection text assembled by the three format calls of the
detection loop, without the terminating newline: the bracketed
comma-separated box coordinates truncated to integers, then the class name,
then the score. -/
def detectionLine (id2label : Nat → String) (formatFloat : Rat → String)
    (d : RawDetection) : String :=
  "[" ++ toString (pyInt d.box.1) ++ ", " ++ toString (pyInt d.box.2.1) ++ ", "
      ++ toString (pyInt d.box.2.2.1) ++ ", " ++ toString (pyInt d.box.2.2.2) ++ "]"
      ++ " " ++ id2label d.label ++ " " ++ formatFloat d.score

/-- One iteration of the detection loop appends the detection line and the
newline that closes its last format string. -/
def formatDetection (id2label : Nat → String) (formatFloat : Rat → String)
    (d : RawDetection) : String :=
  detectionLine id2label formatFloat d ++ "\n"

/-- The ImageCaptionTool subclass of BaseTool, reduced to its class
attributes; its methods read and write no attribute. -/
structure ImageCaptionTool where
  name : String := "Image Captioner"
  description : String := "Generate captions for images"
deriving DecidableEq, Repr

/-- ImageCaptionTool._run: open the image path as RGB, load the BLIP
processor and model for Salesforce/blip-image-captioning-large (the device
move is behaviourally inert), generate with max_new_tokens=20, decode the
first output sequence skipping special tokens, and return the caption. A
failing step raises and nothing is caught. -/
def ImageCaptionTool._run (_self : ImageCaptionTool) (env : Env)
    (img_path : String) : Except PyError String :=
  match env.decodeRGB img_path with
  | none => Except.error PyError.decodeError
  | some image =>
    match from_pretrained env.blipProcessor with
    | Except.error e => Except.error e
    | Except.ok processor =>
      match from_pretrained env.blipModel with
      | Except.error e => Except.error e
      | Except.ok model =>
        let outputs := BlipModel.generate model image 20
        let caption := processor.decode outputs
        Except.ok caption

/-- ImageCaptionTool._arun: unconditionally raises
NotImplementedError("This tool does not support async"). -/
def ImageCaptionTool._arun (_self : ImageCaptionTool) (_query : String) :
    Except PyError String :=
  Except.error (PyError.notImplementedError "This tool does not support async")

/-- The ObjectDetectionTool subclass of BaseTool, reduced to its class
attributes; its methods read and write no attribute. -/
structure ObjectDetectionTool where
  name : String := "Object detector"
  description : String :=
    "Use this tool when given the path to an image that you would like to detect objects. It will return a list of all detected objects. Each element in the list in the format: [x1, y1, x2, y2] class_name confidence_score."
deriving DecidableEq, Repr

/-- ObjectDetectionTool._run: open the image path as RGB, load the DETR
processor and model for facebook/detr-resnet-50, run the model on the
image, post-process the outputs at threshold 0.9, and accumulate into the
detections string, per kept detection, the formatted box, class name and
score followed by a newline. A failing step raises and nothing is
caught. -/
def ObjectDetectionTool._run (_self : ObjectDetectionTool) (env : Env)
    (img_path : String) : Except PyError String :=
  match env.decodeRGB img_path with
  | none => Except.error PyError.decodeError
  | some image =>
    match from_pretrained env.detrProcessor with
    | Except.error e => Except.error e
    | Except.ok processor =>
      match from_pretrained env.detrModel with
      | Except.error e => Except.error e
      | Except.ok model =>
        let outputs := model.forward image
        let results := processor.post_process_object_detection outputs (9/10)
        let detections := results.foldl
          (fun acc d => acc ++ formatDetection model.id2label env.formatFloat d) ""
        Except.ok detections

/-- ObjectDetectionTool._arun: unconditionally raises
NotImplementedError("This tool does not support async"). -/
def ObjectDetectionTool._arun (_self : ObjectDetectionTool) (_query : String) :
    Except PyError String :=
  Except.error (PyError.notImplementedError "This tool does not support async")

/-- Helper get_image_caption from the notebook: its body repeats the body
of ImageCaptionTool._run verbatim. -/
def get_image_caption (env : Env) (image_path : String) : Except PyError String :=
  match env.decodeRGB image_path with
  | none => Except.error PyError.decodeError
  | some image =>
    match from_pretrained env.blipProcessor with
    | Except.error e => Except.error e
    | Except.ok processor =>
      match from_pretrained env.blipModel with
      | Except.error e => Except.error e
      | Except.ok model =>
        let output := BlipModel.generate model image 20
        let caption := processor.decode output
        Except.ok caption

/-- Helper detect_objects from the notebook: its body repeats the body of
ObjectDetectionTool._run verbatim. -/
def detect_objects (env : Env) (image_path : String) : Except PyError String :=
  match env.decodeRGB image_path with
  | none => Except.error PyError.decodeError
  | some image =>
    match from_pretrained env.detrProcessor with
    | Except.error e => Except.error e
    | Except.ok processor =>
      match from_pretrained env.detrModel with
      | Except.error e => Except.error e
      | Except.ok model =>
        let outputs := model.forward image
        let results := processor.post_process_object_detection outputs (9/10)
        let detections := results.foldl
          (fun acc d => acc ++ formatDetection model.id2label env.formatFloat d) ""
        Except.ok detections

/-- State-passing reading of a _run method call on a caption tool object:
the method body contains no attribute assignment, so the object after the
call is the object before it and the result is a function of the
environment and the path alone. -/
def ImageCaptionTool.runState (t : ImageCaptionTool) (env : Env) (p : String) :
    Except PyError String × ImageCaptionTool :=
  (ImageCaptionTool._run t env p, t)

/-- State-passing reading of a _run method call on a detection tool object:
the method body contains no attribute assignment, so the object after the
call is the object before it and the result is a function of the
environment and the path alone. -/
def ObjectDetectionTool.runState (t : ObjectDetectionTool) (env : Env) (p : String) :
    Except PyError String × ObjectDetectionTool :=
  (ObjectDetectionTool._run t env p, t)

/-- The post-processed detection list the rendering loop iterates over for
one image: the raw model outputs filtered at threshold 0.9. -/
def detrResults (model : DetrModel) (image : RGBImage) : List RawDetection :=
  DetrProcessor.post_process_object_detection DetrProcessor.mk
    (model.forward image) (9/10)

/-- The full detections string for one image: the in-order concatenation of
one formatted, newline-terminated line per post-processed detection. -/
def detectionsText (model : DetrModel) (formatFloat : Rat → String)
    (image : RGBImage) : String :=
  String.join ((detrResults model image).map
    (formatDetection model.id2label formatFloat))

/-- A string of the literal single-detection shape: four integers in a
bracketed comma-separated list, then a label string, then a score rendered
by the float formatter. -/
def matchesDetectionLine (formatFloat : Rat → String) (s : String) : Prop :=
  ∃ (x1 y1 x2 y2 : Int) (label : String) (score : Rat),
    s = "[" ++ toString x1 ++ ", " ++ toString y1 ++ ", "
        ++ toString x2 ++ ", " ++ toString y2 ++ "]"
        ++ " " ++ label ++ " " ++ formatFloat score

/-- A string whose last character is the newline character. -/
def endsWithNewline (s : String) : Prop :=
  s.data.getLast? = some (Char.ofNat 10)

/-- Joining a cons is appending the head to the join of the tail. -/
theorem String_join_cons (a : String) (l : List String) :
    String.join (a :: l) = a ++ String.join l := by
  apply String.ext
  simp [String.data_join, String.data_append]

/-- Joining a list extended on the right appends the new element last. -/
theorem String_join_concat (l : List String) (a : String) :
    String.join (l ++ [a]) = String.join l ++ a := by
  apply String.ext
  simp [String.data_join, String.data_append]

/-- The string-accumulating left fold of the detection loop is the initial
accumulator followed by the join of the per-element strings, in order. -/
theorem foldl_append_join {α : Type} (f : α → String) :
    ∀ (l : List α) (init : String),
      l.foldl (fun acc d => acc ++ f d) init = init ++ String.join (l.map f)
  | [], init => by simp [String.join, String.append_empty]
  | d :: l, init => by
    rw [List.map_cons, List.foldl_cons, foldl_append_join f l (init ++ f d),
      String_join_cons, String.append_assoc]

/-- A join of strings of length at most L has length at most L times the
list length. -/
theorem length_join_le (L : Nat) :
    ∀ (l : List String), (∀ s ∈ l, s.length ≤ L) →
      (String.join l).length ≤ l.length * L
  | [], _ => by simp [String.join]
  | a :: l, h => by
    rw [String_join_cons, String.length_append]
    have h1 : a.length ≤ L := h a (List.mem_cons_self a l)
    have h2 : (String.join l).length ≤ l.length * L :=
      length_join_le L l (fun s hs => h s (List.mem_cons_of_mem a hs))
    calc a.length + (String.join l).length ≤ L + l.length * L := Nat.add_le_add h1 h2
    _ = (l.length + 1) * L := by ring
    _ = (a :: l).length * L := by simp

/-- Every member of a joined list contributes its full length to the
join. -/
theorem le_length_join :
    ∀ (l : List String) (s : String), s ∈ l → s.length ≤ (String.join l).length
  | a :: l, s, hs => by
    rw [String_join_cons, String.length_append]
    rcases List.mem_cons.mp hs with h | h
    · exact h ▸ Nat.le_add_right _ _
    · exact Nat.le_trans (le_length_join l s h) (Nat.le_add_left _ _)

/-- A nonempty string has positive length. -/
theorem length_pos_of_ne_empty (s : String) (h : s ≠ "") : 0 < s.length := by
  cases s with
  | mk data =>
    cases data with
    | nil => exact absurd rfl h
    | cons c cs => simp [String.length]

/-- Appending a newline yields a string that ends with a newline. -/
theorem endsWithNewline_append (s : String) : endsWithNewline (s ++ "\n") := by
  unfold endsWithNewline
  rw [String.data_append]
  have h : ("\n" : String).data = [Char.ofNat 10] := by decide
  rw [h]
  exact List.getLast?_concat s.data

/-- Decoding at most n tokens of length at most L gives a string of length
at most n times L. -/
theorem decode_length_le (proc : BlipProcessor) (toks : List String) (L : Nat)
    (hL : ∀ tok ∈ toks, tok.length ≤ L) :
    (proc.decode toks).length ≤ toks.length * L := by
  unfold BlipProcessor.decode
  have hsub : ∀ s ∈ toks.filter (fun tok => !(proc.special tok)), s.length ≤ L :=
    fun s hs => hL s (List.mem_of_mem_filter hs)
  calc (String.join (toks.filter (fun tok => !(proc.special tok)))).length
      ≤ (toks.filter (fun tok => !(proc.special tok))).length * L :=
        length_join_le L _ hsub
    _ ≤ toks.length * L := Nat.mul_le_mul_right L (List.length_filter_le _ _)

/-- Successful caption run: when decoding and both loads succeed, the
wrapper returns the decoded bounded generation for the image. -/
theorem captionRun_ok (t : ImageCaptionTool) (env : Env) (p : String)
    (img : RGBImage) (processor : BlipProcessor) (model : BlipModel)
    (hdec : env.decodeRGB p = some img)
    (hproc : env.blipProcessor = some processor)
    (hmodel : env.blipModel = some model) :
    ImageCaptionTool._run t env p =
      Except.ok (processor.decode (BlipModel.generate model img 20)) := by
  simp [ImageCaptionTool._run, hdec, hproc, hmodel, from_pretrained]

/-- Successful detection run: when decoding and both loads succeed, the
wrapper returns the detections string for the post-processed results. -/
theorem detectRun_ok (t : ObjectDetectionTool) (env : Env) (p : String)
    (img : RGBImage) (model : DetrModel)
    (hdec : env.decodeRGB p = some img)
    (hproc : env.detrProcessor = some DetrProcessor.mk)
    (hmodel : env.detrModel = some model) :
    ObjectDetectionTool._run t env p =
      Except.ok (detectionsText model env.formatFloat img) := by
  simp only [ObjectDetectionTool._run, hdec, hproc, hmodel, from_pretrained]
  rw [foldl_append_join, String.empty_append]
  rfl

/-- Sample decoded image used for concrete evaluations. -/
def imgA : RGBImage := { width := 640, height := 480 }

/-- Sample BLIP processor whose only special token is the classifier
token. -/
def blipProcessorA : BlipProcessor := { special := fun tok => tok == "[CLS]" }

/-- Sample BLIP model with a four-token decoding stream. -/
def blipModelA : BlipModel :=
  { stream := fun _ => ["[CLS]", "a", " busy", " street"] }

/-- Sample high-confidence detection. -/
def dHigh : RawDetection := { score := 19/20, label := 3, box := (10, 20, 110, 220) }

/-- Sample low-confidence detection. -/
def dLow : RawDetection := { score := 1/2, label := 1, box := (5, 5, 50, 50) }

/-- Sample DETR model returning one detection above and one below the
threshold. -/
def detrModelA : DetrModel :=
  { forward := fun _ => [dHigh, dLow],
    id2label := fun n => if n == 3 then "car" else "person" }

/-- Sample environment in which every external call succeeds on the path
traffic.jpg. -/
def envA : Env :=
  { decodeRGB := fun p => if p == "traffic.jpg" then some imgA else none,
    blipProcessor := some blipProcessorA,
    blipModel := some blipModelA,
    detrProcessor := some DetrProcessor.mk,
    detrModel := some detrModelA,
    formatFloat := fun q => toString q }

/-- Sample environment in which the image path cannot be decoded and no
model load succeeds. -/
def envBad : Env :=
  { decodeRGB := fun _ => none,
    blipProcessor := none,
    blipModel := none,
    detrProcessor := none,
    detrModel := none,
    formatFloat := fun q => toString q }

/-- Default caption tool object. -/
def capToolA : ImageCaptionTool := {}

/-- Default detection tool object. -/
def detToolA : ObjectDetectionTool := {}

/-- C1: for any image and environment on which the detection pipeline
succeeds, the wrapper returns exactly the rendering of the post-processed
detections; every detection so rendered has confidence at least 0.9, and no
raw detection with confidence below 0.9 is among the rendered ones. -/
theorem detection_confidence_at_least_09
    (t : ObjectDetectionTool) (env : Env) (p : String) (img : RGBImage)
    (model : DetrModel)
    (hdec : env.decodeRGB p = some img)
    (hproc : env.detrProcessor = some DetrProcessor.mk)
    (hmodel : env.detrModel = some model) :
    ObjectDetectionTool._run t env p =
      Except.ok (detectionsText model env.formatFloat img) ∧
    (∀ d ∈ detrResults model img, (9 : Rat)/10 ≤ d.score) ∧
    (∀ d ∈ model.forward img, d.score < 9/10 → d ∉ detrResults model img) := by
  refine ⟨detectRun_ok t env p img model hdec hproc hmodel, ?_, ?_⟩
  · intro d hd
    have h9 : (9 : Rat)/10 < d.score := by
      have hm := (List.mem_filter.mp hd).2
      simpa using hm
    exact le_of_lt h9
  · intro d _ hlt hd
    have h9 : (9 : Rat)/10 < d.score := by
      have hm := (List.mem_filter.mp hd).2
      simpa using hm
    exact absurd h9 (not_lt.mpr (le_of_lt hlt))

/-- The post-processing step keeps exactly the high-confidence sample
detection. -/
theorem detrResultsA_eq : detrResults detrModelA imgA = [dHigh] := by
  norm_num [detrResults, DetrProcessor.post_process_object_detection,
    detrModelA, List.filter, dHigh, dLow]

/-- Witness for C1 at the sample environment: the run succeeds and the kept
sample detection has confidence at least 0.9. -/
theorem detection_confidence_at_least_09_witness :
    ObjectDetectionTool._run detToolA envA "traffic.jpg" =
      Except.ok (detectionsText detrModelA envA.formatFloat imgA) ∧
    (9 : Rat)/10 ≤ dHigh.score :=
  have h := detection_confidence_at_least_09 detToolA envA "traffic.jpg" imgA
    detrModelA rfl rfl rfl
  ⟨h.1, h.2.1 dHigh (by rw [detrResultsA_eq]; exact List.mem_singleton.mpr rfl)⟩

/-- C2: on a successful run the wrapper output is the concatenation of one
newline-terminated line per kept detection, and each such line has the
literal shape of a bracketed comma-separated integer box, the class label,
and the rendered score. -/
theorem detection_lines_format
    (t : ObjectDetectionTool) (env : Env) (p : String) (img : RGBImage)
    (model : DetrModel)
    (hdec : env.decodeRGB p = some img)
    (hproc : env.detrProcessor = some DetrProcessor.mk)
    (hmodel : env.detrModel = some model) :
    ObjectDetectionTool._run t env p =
      Except.ok (String.join ((detrResults model img).map
        (fun d => detectionLine model.id2label env.formatFloat d ++ "\n"))) ∧
    ∀ d ∈ detrResults model img,
      matchesDetectionLine env.formatFloat
        (detectionLine model.id2label env.formatFloat d) := by
  constructor
  · exact detectRun_ok t env p img model hdec hproc hmodel
  · intro d _
    exact ⟨pyInt d.box.1, pyInt d.box.2.1, pyInt d.box.2.2.1, pyInt d.box.2.2.2,
      model.id2label d.label, d.score, rfl⟩

/-- Witness for C2 at the sample environment: the line rendered for the
kept sample detection has the literal format. -/
theorem detection_lines_format_witness :
    matchesDetectionLine envA.formatFloat
      (detectionLine detrModelA.id2label envA.formatFloat dHigh) :=
  (detection_lines_format detToolA envA "traffic.jpg" imgA detrModelA
    rfl rfl rfl).2 dHigh (by rw [detrResultsA_eq]; exact List.mem_singleton.mpr rfl)

/-- C3: calling either tool asynchronously always raises the
NotImplementedError signal declaring async unsupported and never returns a
value, for every query. -/
theorem arun_always_fails :
    ∀ (t : ImageCaptionTool) (u : ObjectDetectionTool) (q : String),
      ImageCaptionTool._arun t q =
        Except.error (PyError.notImplementedError "This tool does not support async") ∧
      ObjectDetectionTool._arun u q =
        Except.error (PyError.notImplementedError "This tool does not support async") ∧
      (∀ v : String, ImageCaptionTool._arun t q ≠ Except.ok v) ∧
      (∀ v : String, ObjectDetectionTool._arun u q ≠ Except.ok v) := by
  intro t u q
  refine ⟨rfl, rfl, ?_, ?_⟩
  · intro v h
    exact Except.noConfusion h
  · intro v h
    exact Except.noConfusion h

/-- Witness for C3 at concrete tools and a concrete query. -/
theorem arun_always_fails_witness :
    ImageCaptionTool._arun capToolA "caption this" =
      Except.error (PyError.notImplementedError "This tool does not support async") ∧
    ImageCaptionTool._arun capToolA "caption this" ≠ Except.ok "a caption" :=
  ⟨(arun_always_fails capToolA detToolA "caption this").1,
   (arun_always_fails capToolA detToolA "caption this").2.2.1 "a caption"⟩

/-- C6: on a successful run the wrapper output is the join, in the order of
the post-processed result list itself, of the rendering of each detection:
no sorting or reordering happens between post-processing and output. -/
theorem detection_output_native_order
    (t : ObjectDetectionTool) (env : Env) (p : String) (img : RGBImage)
    (model : DetrModel)
    (hdec : env.decodeRGB p = some img)
    (hproc : env.detrProcessor = some DetrProcessor.mk)
    (hmodel : env.detrModel = some model) :
    ObjectDetectionTool._run t env p =
      Except.ok (String.join ((detrResults model img).map
        (formatDetection model.id2label env.formatFloat))) :=
  detectRun_ok t env p img model hdec hproc hmodel

/-- Witness for C6 at the sample environment. -/
theorem detection_output_native_order_witness :
    ObjectDetectionTool._run detToolA envA "traffic.jpg" =
      Except.ok (String.join ((detrResults detrModelA imgA).map
        (formatDetection detrModelA.id2label envA.formatFloat))) :=
  detection_output_native_order detToolA envA "traffic.jpg" imgA detrModelA
    rfl rfl rfl

/-- C10: for every environment and path, each tool method computes the same
function as its standalone helper. -/
theorem run_methods_equal_helpers :
    ∀ (t : ImageCaptionTool) (u : ObjectDetectionTool) (env : Env) (p : String),
      ImageCaptionTool._run t env p = get_image_caption env p ∧
      ObjectDetectionTool._run u env p = detect_objects env p :=
  fun _ _ _ _ => ⟨rfl, rfl⟩

/-- C4: on a successful run the caption is the decoding of a generation of
at most 20 tokens, and when every generated token has length at most L the
caption string has length at most 20 times L. -/
theorem caption_token_budget
    (t : ImageCaptionTool) (env : Env) (p : String) (img : RGBImage)
    (processor : BlipProcessor) (model : BlipModel) (L : Nat)
    (hdec : env.decodeRGB p = some img)
    (hproc : env.blipProcessor = some processor)
    (hmodel : env.blipModel = some model)
    (hL : ∀ tok ∈ BlipModel.generate model img 20, tok.length ≤ L) :
    ImageCaptionTool._run t env p =
      Except.ok (processor.decode (BlipModel.generate model img 20)) ∧
    (BlipModel.generate model img 20).length ≤ 20 ∧
    (processor.decode (BlipModel.generate model img 20)).length ≤ 20 * L := by
  have h2 : (BlipModel.generate model img 20).length ≤ 20 := by
    unfold BlipModel.generate
    rw [List.length_take]
    exact Nat.min_le_left _ _
  refine ⟨captionRun_ok t env p img processor model hdec hproc hmodel, h2, ?_⟩
  exact Nat.le_trans (decode_length_le processor _ L hL) (Nat.mul_le_mul_right L h2)

/-- Witness for C4 at the sample environment with token-length bound 7. -/
theorem caption_token_budget_witness :
    ImageCaptionTool._run capToolA envA "traffic.jpg" =
      Except.ok (blipProcessorA.decode (BlipModel.generate blipModelA imgA 20)) ∧
    (BlipModel.generate blipModelA imgA 20).length ≤ 20 ∧
    (blipProcessorA.decode (BlipModel.generate blipModelA imgA 20)).length ≤ 20 * 7 :=
  caption_token_budget capToolA envA "traffic.jpg" imgA blipProcessorA blipModelA 7
    rfl rfl rfl (by decide)

/-- C5: on a successful run whose bounded generation contains at least one
nonempty non-special token, the caption returned is a nonempty string of
length at most 20 times the token-length bound. -/
theorem caption_nonempty_bounded
    (t : ImageCaptionTool) (env : Env) (p : String) (img : RGBImage)
    (processor : BlipProcessor) (model : BlipModel) (L : Nat)
    (hdec : env.decodeRGB p = some img)
    (hproc : env.blipProcessor = some processor)
    (hmodel : env.blipModel = some model)
    (htok : ∃ tok ∈ BlipModel.generate model img 20,
      processor.special tok = false ∧ tok ≠ "")
    (hL : ∀ tok ∈ BlipModel.generate model img 20, tok.length ≤ L) :
    ImageCaptionTool._run t env p =
      Except.ok (processor.decode (BlipModel.generate model img 20)) ∧
    processor.decode (BlipModel.generate model img 20) ≠ "" ∧
    (processor.decode (BlipModel.generate model img 20)).length ≤ 20 * L := by
  obtain ⟨tok, hmem, hspec, hne⟩ := htok
  have hfil : tok ∈ (BlipModel.generate model img 20).filter
      (fun s => !(processor.special s)) :=
    List.mem_filter.mpr ⟨hmem, by simp [hspec]⟩
  have hlen : tok.length ≤
      (processor.decode (BlipModel.generate model img 20)).length := by
    unfold BlipProcessor.decode
    exact le_length_join _ tok hfil
  have hpos : 0 < (processor.decode (BlipModel.generate model img 20)).length :=
    Nat.lt_of_lt_of_le (length_pos_of_ne_empty tok hne) hlen
  have h2 : (BlipModel.generate model img 20).length ≤ 20 := by
    unfold BlipModel.generate
    rw [List.length_take]
    exact Nat.min_le_left _ _
  refine ⟨captionRun_ok t env p img processor model hdec hproc hmodel, ?_, ?_⟩
  · intro hcontra
    rw [hcontra] at hpos
    exact absurd hpos (by decide)
  · exact Nat.le_trans (decode_length_le processor _ L hL) (Nat.mul_le_mul_right L h2)

/-- Witness for C5 at the sample environment: the sample caption is a
nonempty string within the bound. -/
theorem caption_nonempty_bounded_witness :
    ImageCaptionTool._run capToolA envA "traffic.jpg" =
      Except.ok (blipProcessorA.decode (BlipModel.generate blipModelA imgA 20)) ∧
    blipProcessorA.decode (BlipModel.generate blipModelA imgA 20) ≠ "" ∧
    (blipProcessorA.decode (BlipModel.generate blipModelA imgA 20)).length ≤ 20 * 7 :=
  caption_nonempty_bounded capToolA envA "traffic.jpg" imgA blipProcessorA
    blipModelA 7 rfl rfl rfl ⟨"a", by decide, by decide, by decide⟩ (by decide)

/-- C7: a path that cannot be decoded to an RGB image makes both wrappers
fail with the decode error, and a failed model load at any of the four load
points makes the corresponding wrapper fail with the load error; in every
case the error reaches the caller unchanged and nothing is caught. -/
theorem errors_propagate_uncaught :
    ∀ (t : ImageCaptionTool) (u : ObjectDetectionTool) (env : Env) (p : String),
      (env.decodeRGB p = none →
        ImageCaptionTool._run t env p = Except.error PyError.decodeError ∧
        ObjectDetectionTool._run u env p = Except.error PyError.decodeError) ∧
      (∀ img, env.decodeRGB p = some img → env.blipProcessor = none →
        ImageCaptionTool._run t env p = Except.error PyError.loadError) ∧
      (∀ img processor, env.decodeRGB p = some img →
        env.blipProcessor = some processor → env.blipModel = none →
        ImageCaptionTool._run t env p = Except.error PyError.loadError) ∧
      (∀ img, env.decodeRGB p = some img → env.detrProcessor = none →
        ObjectDetectionTool._run u env p = Except.error PyError.loadError) ∧
      (∀ img processor, env.decodeRGB p = some img →
        env.detrProcessor = some processor → env.detrModel = none →
        ObjectDetectionTool._run u env p = Except.error PyError.loadError) := by
  intro t u env p
  refine ⟨?_, ?_, ?_, ?_, ?_⟩
  · intro h
    exact ⟨by simp [ImageCaptionTool._run, h], by simp [ObjectDetectionTool._run, h]⟩
  · intro img h1 h2
    simp [ImageCaptionTool._run, h1, h2, from_pretrained]
  · intro img processor h1 h2 h3
    simp [ImageCaptionTool._run, h1, h2, h3, from_pretrained]
  · intro img h1 h2
    simp [ObjectDetectionTool._run, h1, h2, from_pretrained]
  · intro img processor h1 h2 h3
    simp [ObjectDetectionTool._run, h1, h2, h3, from_pretrained]

/-- Witness for C7 at an environment whose decoding always fails. -/
theorem errors_propagate_uncaught_witness :
    ImageCaptionTool._run capToolA envBad "missing.jpg" =
      Except.error PyError.decodeError ∧
    ObjectDetectionTool._run detToolA envBad "missing.jpg" =
      Except.error PyError.decodeError :=
  (errors_propagate_uncaught capToolA detToolA envBad "missing.jpg").1 rfl

/-- C8: a _run call is stateless: the tool object after the call is the
object before it (name and description unchanged), the result does not
depend on the object at all, and repeating the call from the state left by
a previous call gives the same answer, every invocation consulting the
environment afresh. -/
theorem run_is_stateless :
    ∀ (t tA : ImageCaptionTool) (u uA : ObjectDetectionTool) (env : Env) (p : String),
      (ImageCaptionTool.runState t env p).2 = t ∧
      (ObjectDetectionTool.runState u env p).2 = u ∧
      (ImageCaptionTool.runState t env p).1 = (ImageCaptionTool.runState tA env p).1 ∧
      (ObjectDetectionTool.runState u env p).1 = (ObjectDetectionTool.runState uA env p).1 ∧
      ImageCaptionTool.runState ((ImageCaptionTool.runState t env p).2) env p =
        ImageCaptionTool.runState t env p ∧
      ObjectDetectionTool.runState ((ObjectDetectionTool.runState u env p).2) env p =
        ObjectDetectionTool.runState u env p :=
  fun _ _ _ _ _ _ => ⟨rfl, rfl, rfl, rfl, rfl, rfl⟩

/-- C9: on a successful run, an image whose post-processed detection list
is empty yields exactly the empty string, and an image with at least one
kept detection yields the detections text, a string ending in a newline. -/
theorem detections_empty_or_newline
    (t : ObjectDetectionTool) (env : Env) (p : String) (img : RGBImage)
    (model : DetrModel)
    (hdec : env.decodeRGB p = some img)
    (hproc : env.detrProcessor = some DetrProcessor.mk)
    (hmodel : env.detrModel = some model) :
    (detrResults model img = [] → ObjectDetectionTool._run t env p = Except.ok "") ∧
    (detrResults model img ≠ [] →
      ObjectDetectionTool._run t env p =
        Except.ok (detectionsText model env.formatFloat img) ∧
      endsWithNewline (detectionsText model env.formatFloat img)) := by
  have hrun := detectRun_ok t env p img model hdec hproc hmodel
  constructor
  · intro h
    rw [hrun]
    unfold detectionsText
    rw [h]
    rfl
  · intro h
    refine ⟨hrun, ?_⟩
    rcases List.eq_nil_or_concat (detrResults model img) with h0 | ⟨l, a, hconcat⟩
    · exact absurd h0 h
    · unfold detectionsText
      rw [hconcat, List.concat_eq_append, List.map_append]
      simp only [List.map_cons, List.map_nil]
      rw [String_join_concat]
      have hfd : formatDetection model.id2label env.formatFloat a =
          detectionLine model.id2label env.formatFloat a ++ "\n" := rfl
      rw [hfd, ← String.append_assoc]
      exact endsWithNewline_append _

/-- Witness for C9 at the sample environment: the sample image keeps one
detection and the returned text ends in a newline. -/
theorem detections_empty_or_newline_witness :
    ObjectDetectionTool._run detToolA envA "traffic.jpg" =
      Except.ok (detectionsText detrModelA envA.formatFloat imgA) ∧
    endsWithNewline (detectionsText detrModelA envA.formatFloat imgA) :=
  (detections_empty_or_newline detToolA envA "traffic.jpg" imgA detrModelA
    rfl rfl rfl).2 (by rw [detrResultsA_eq]; exact List.cons_ne_nil dHigh [])
